import Mathlib

/-!
Verification development for the Batman side-scrolling combat simulation.
The repository has two game variants:
  * `batman_arkham_2d.py`  — embedded below in namespace `Arkham2D`
  * `batman_arkham_shadows.py` — embedded below in namespace `Shadows`
Python `int` fields are modelled as `ℤ`, Python `float` fields as `ℚ`
(exact rational arithmetic; at every concrete value appearing in the
claims the binary-float results of the source and the rational results
agree, which is checked where it matters).  Python `int(x)` (truncation
toward zero) is modelled by `pyInt`.
-/

/-- Python `int(x)` conversion: truncation toward zero. -/
def pyInt (q : ℚ) : ℤ :=
  if 0 ≤ q then ⌊q⌋ else ⌈q⌉

/-- Axis-aligned rectangle, the shallow embedding of `pygame.Rect` as used
by the collision code (`colliderect` overlap test). -/
structure Rect where
  x : ℚ
  y : ℚ
  w : ℚ
  h : ℚ

/-- Overlap test of two axis-aligned rectangles (`pygame.Rect.colliderect`). -/
def Rect.colliderect (a b : Rect) : Bool :=
  decide (a.x < b.x + b.w) && decide (b.x < a.x + a.w) &&
  decide (a.y < b.y + b.h) && decide (b.y < a.y + a.h)

namespace Arkham2D

/-- `EntityState` enum of `batman_arkham_2d.py`. -/
inductive EntityState where
  | IDLE | RUNNING | JUMPING | FALLING | ATTACKING | HIT | DEAD | BLOCKING
deriving DecidableEq, Repr

/-- `AttackType` enum of `batman_arkham_2d.py`. -/
inductive AttackType where
  | NONE | PUNCH | KICK | BATARANG | ENEMY_MELEE | ENEMY_PROJECTILE
deriving DecidableEq, Repr

/-- The `PlayerStats` dataclass (instance `PLAYER_STATS`) of
`batman_arkham_2d.py`, numeric fields only. -/
structure PlayerStats where
  MAX_HEALTH : ℤ
  MOVE_SPEED : ℚ
  JUMP_POWER : ℚ
  DOUBLE_JUMP_POWER : ℚ
  MAX_JUMPS : ℤ
  PUNCH_DAMAGE : ℤ
  KICK_DAMAGE : ℤ
  BATARANG_DAMAGE : ℤ
  PUNCH_RANGE : ℤ
  KICK_RANGE : ℤ
  BATARANG_SPEED : ℚ
  BATARANG_MAX_DISTANCE : ℤ
  PUNCH_COOLDOWN : ℤ
  KICK_COOLDOWN : ℤ
  BATARANG_COOLDOWN : ℤ
  HIT_INVINCIBILITY : ℤ
  COMBO_WINDOW : ℤ
  COMBO_DAMAGE_BONUS : ℚ
  MAX_COMBO_MULTIPLIER : ℚ

/-- The module-level `PLAYER_STATS = PlayerStats()` instance. -/
def PLAYER_STATS : PlayerStats where
  MAX_HEALTH := 120
  MOVE_SPEED := 7
  JUMP_POWER := -19
  DOUBLE_JUMP_POWER := -16
  MAX_JUMPS := 2
  PUNCH_DAMAGE := 35
  KICK_DAMAGE := 45
  BATARANG_DAMAGE := 20
  PUNCH_RANGE := 70
  KICK_RANGE := 85
  BATARANG_SPEED := 18
  BATARANG_MAX_DISTANCE := 600
  PUNCH_COOLDOWN := 12
  KICK_COOLDOWN := 20
  BATARANG_COOLDOWN := 35
  HIT_INVINCIBILITY := 60
  COMBO_WINDOW := 100
  COMBO_DAMAGE_BONUS := 0.15
  MAX_COMBO_MULTIPLIER := 2.5

/-- The `EnemyConfig` dataclass of `batman_arkham_2d.py`, numeric and
boolean fields (colors are presentation-only and omitted). -/
structure EnemyConfig where
  is_boss : Bool
  health : ℤ
  damage : ℤ
  speed : ℚ
  attack_range : ℤ
  attack_cooldown : ℤ
  width : ℤ
  height : ℤ
  can_block : Bool
  can_dodge : Bool
  has_projectile : Bool
  projectile_damage : ℤ
  projectile_speed : ℚ
  aggression : ℚ
  patrol_range : ℤ
  score_value : ℤ
  health_drop_chance : ℚ

/-- The `Projectile` class of `batman_arkham_2d.py`. -/
structure Projectile where
  x : ℚ
  y : ℚ
  velocity_x : ℚ
  velocity_y : ℚ
  damage : ℤ
  owner_is_player : Bool
  max_distance : ℤ
  distance_traveled : ℚ
  active : Bool
  angle : ℤ
  width : ℤ
  height : ℤ

/-- `Projectile.__init__`: the fields set by the constructor
(`distance_traveled = 0`, `active = True`, `angle = 0`, size 20×10). -/
def Projectile.mkNew (x y vx vy : ℚ) (damage : ℤ) (owner_is_player : Bool)
    (max_distance : ℤ) : Projectile where
  x := x
  y := y
  velocity_x := vx
  velocity_y := vy
  damage := damage
  owner_is_player := owner_is_player
  max_distance := max_distance
  distance_traveled := 0
  active := true
  angle := 0
  width := 20
  height := 10

/-- `Projectile.update` of `batman_arkham_2d.py` (lines 1144–1156):
no-op when inactive; otherwise advance position by velocity, accumulate
`abs(velocity_x)` into `distance_traveled`, spin the angle, and
deactivate when `distance_traveled > max_distance`. -/
def Projectile.update (p : Projectile) : Projectile :=
  if !p.active then p
  else
    let p1 : Projectile :=
      { p with
        x := p.x + p.velocity_x
        y := p.y + p.velocity_y
        distance_traveled := p.distance_traveled + |p.velocity_x|
        angle := p.angle + 15 }
    if p1.distance_traveled > (p1.max_distance : ℚ) then
      { p1 with active := false }
    else p1

/-- `Projectile.get_rect`. -/
def Projectile.get_rect (p : Projectile) : Rect where
  x := p.x - (p.width : ℚ) / 2
  y := p.y - (p.height : ℚ) / 2
  w := p.width
  h := p.height

/-- The `Player` class of `batman_arkham_2d.py` (fields of `Entity` plus
the player-specific fields; animation counters kept, drawing omitted). -/
structure Player where
  x : ℚ
  y : ℚ
  width : ℤ
  height : ℤ
  velocity_x : ℚ
  velocity_y : ℚ
  facing_right : Bool
  state : EntityState
  health : ℤ
  max_health : ℤ
  invincibility_frames : ℤ
  current_attack : AttackType
  jumps_remaining : ℤ
  combo_count : ℤ
  combo_timer : ℤ
  score : ℤ
  punch_cooldown : ℤ
  kick_cooldown : ℤ
  batarang_cooldown : ℤ
  attack_duration : ℤ

/-- `Player.get_rect`. -/
def Player.get_rect (p : Player) : Rect :=
  ⟨p.x, p.y, (p.width : ℚ), (p.height : ℚ)⟩

/-- `Player.punch` (lines 1312–1324): fires only when `punch_cooldown <= 0`
and `attack_duration <= 0`; then sets the cooldown, the attack kind, a
15-frame active duration and the ATTACKING state, returning `True`.
Otherwise returns `False` and changes nothing (the sound cue is an
external collaborator). -/
def Player.punch (p : Player) : Bool × Player :=
  if p.punch_cooldown ≤ 0 ∧ p.attack_duration ≤ 0 then
    (true, { p with
      punch_cooldown := PLAYER_STATS.PUNCH_COOLDOWN
      current_attack := AttackType.PUNCH
      attack_duration := 15
      state := EntityState.ATTACKING })
  else (false, p)

/-- `Player.kick` (lines 1326–1338): analogous to `punch`, with
`kick_cooldown` and a 20-frame active duration. -/
def Player.kick (p : Player) : Bool × Player :=
  if p.kick_cooldown ≤ 0 ∧ p.attack_duration ≤ 0 then
    (true, { p with
      kick_cooldown := PLAYER_STATS.KICK_COOLDOWN
      current_attack := AttackType.KICK
      attack_duration := 20
      state := EntityState.ATTACKING })
  else (false, p)

/-- `Player.throw_batarang` (lines 1340–1363): the guard checks only
`batarang_cooldown <= 0` (it does not check `attack_duration`); on
success sets the cooldown, attack kind and a 10-frame duration and
returns the spawned projectile. -/
def Player.throw_batarang (p : Player) : Option Projectile × Player :=
  if p.batarang_cooldown ≤ 0 then
    let direction : ℚ := if p.facing_right then 1 else -1
    let batarang := Projectile.mkNew
      (p.x + (if p.facing_right then (p.width : ℚ) else 0))
      (p.y + (p.height : ℚ) / 3)
      (PLAYER_STATS.BATARANG_SPEED * direction) 0
      PLAYER_STATS.BATARANG_DAMAGE true
      PLAYER_STATS.BATARANG_MAX_DISTANCE
    (some batarang, { p with
      batarang_cooldown := PLAYER_STATS.BATARANG_COOLDOWN
      current_attack := AttackType.BATARANG
      attack_duration := 10 })
  else (none, p)

/-- `Player.get_attack_rect` (lines 1365–1382): `None` when no attack is
current or the duration has run out; for PUNCH/KICK a rectangle in front
of the player sized by the attack range; `None` for any other kind. -/
def Player.get_attack_rect (p : Player) : Option Rect :=
  if p.current_attack = AttackType.NONE ∨ p.attack_duration ≤ 0 then none
  else
    match p.current_attack with
    | AttackType.PUNCH =>
        some (if p.facing_right then
          ⟨p.x + (p.width : ℚ), p.y + 20, (PLAYER_STATS.PUNCH_RANGE : ℚ),
            (p.height : ℚ) - 40⟩
        else
          ⟨p.x - (PLAYER_STATS.PUNCH_RANGE : ℚ), p.y + 20,
            (PLAYER_STATS.PUNCH_RANGE : ℚ), (p.height : ℚ) - 40⟩)
    | AttackType.KICK =>
        some (if p.facing_right then
          ⟨p.x + (p.width : ℚ), p.y + 20, (PLAYER_STATS.KICK_RANGE : ℚ),
            (p.height : ℚ) - 40⟩
        else
          ⟨p.x - (PLAYER_STATS.KICK_RANGE : ℚ), p.y + 20,
            (PLAYER_STATS.KICK_RANGE : ℚ), (p.height : ℚ) - 40⟩)
    | _ => none

/-- `Player.get_attack_damage` (lines 1384–1397): base damage by attack
kind, scaled by `min(1 + combo_count * COMBO_DAMAGE_BONUS,
MAX_COMBO_MULTIPLIER)` and truncated with `int(...)`. -/
def Player.get_attack_damage (p : Player) : ℤ :=
  let base : ℤ :=
    match p.current_attack with
    | AttackType.PUNCH => PLAYER_STATS.PUNCH_DAMAGE
    | AttackType.KICK => PLAYER_STATS.KICK_DAMAGE
    | _ => 0
  if p.current_attack = AttackType.PUNCH ∨ p.current_attack = AttackType.KICK then
    let multiplier : ℚ :=
      min (1 + (p.combo_count : ℚ) * PLAYER_STATS.COMBO_DAMAGE_BONUS)
        PLAYER_STATS.MAX_COMBO_MULTIPLIER
    pyInt ((base : ℚ) * multiplier)
  else 0

/-- `Player.register_hit` (lines 1399–1403): increment the combo counter
and reset the combo window. -/
def Player.register_hit (p : Player) : Player :=
  { p with
    combo_count := p.combo_count + 1
    combo_timer := PLAYER_STATS.COMBO_WINDOW }

/-- `Player.take_damage` (lines 1405–1414): no-op while invincible;
otherwise runs `Entity.take_damage` (subtract health, 30 invincibility
frames, knockback, death at `health <= 0`), then zeroes the combo and
overwrites the invincibility window with `HIT_INVINCIBILITY`. -/
def Player.take_damage (p : Player) (amount : ℤ) (knockback_direction : ℤ) :
    Player :=
  if p.invincibility_frames > 0 then p
  else
    let p1 : Player :=
      { p with
        health := p.health - amount
        invincibility_frames := 30
        velocity_x := (knockback_direction : ℚ) * 5 }
    let p2 : Player :=
      if p1.health ≤ 0 then { p1 with health := 0, state := EntityState.DEAD }
      else p1
    { p2 with
      combo_count := 0
      combo_timer := 0
      invincibility_frames := PLAYER_STATS.HIT_INVINCIBILITY }

/-- The timer block inside `Player.handle_input` (lines 1282–1298): each
cooldown decrements while positive; the attack duration decrements and,
on reaching 0, clears the current attack; the combo window decrements
while positive, otherwise the combo count resets. -/
def Player.tickTimers (p : Player) : Player :=
  let p := if p.punch_cooldown > 0 then
    { p with punch_cooldown := p.punch_cooldown - 1 } else p
  let p := if p.kick_cooldown > 0 then
    { p with kick_cooldown := p.kick_cooldown - 1 } else p
  let p := if p.batarang_cooldown > 0 then
    { p with batarang_cooldown := p.batarang_cooldown - 1 } else p
  let p := if p.attack_duration > 0 then
    let p1 : Player := { p with attack_duration := p.attack_duration - 1 }
    if p1.attack_duration = 0 then { p1 with current_attack := AttackType.NONE }
    else p1
  else p
  if p.combo_timer > 0 then { p with combo_timer := p.combo_timer - 1 }
  else { p with combo_count := 0 }

/-- The `Enemy` class of `batman_arkham_2d.py` (entity fields plus AI
bookkeeping; the config reference is stored by value since this variant
never writes through it). -/
structure Enemy where
  x : ℚ
  y : ℚ
  velocity_x : ℚ
  velocity_y : ℚ
  facing_right : Bool
  state : EntityState
  health : ℤ
  max_health : ℤ
  invincibility_frames : ℤ
  attack_cooldown : ℤ
  current_attack : AttackType
  attack_frame : ℤ
  config : EnemyConfig
  blocking : Bool

/-- `Enemy.get_rect` (width/height come from the config). -/
def Enemy.get_rect (e : Enemy) : Rect :=
  ⟨e.x, e.y, (e.config.width : ℚ), (e.config.height : ℚ)⟩

/-- `Enemy.get_attack_rect` (lines 1644–1654): `None` unless the current
attack is ENEMY_MELEE with `attack_frame >= 5`; otherwise a rectangle in
front of the enemy sized by `config.attack_range`. -/
def Enemy.get_attack_rect (e : Enemy) : Option Rect :=
  if e.current_attack ≠ AttackType.ENEMY_MELEE ∨ e.attack_frame < 5 then none
  else
    some (if e.facing_right then
      ⟨e.x + (e.config.width : ℚ), e.y + 20, (e.config.attack_range : ℚ),
        (e.config.height : ℚ) - 40⟩
    else
      ⟨e.x - (e.config.attack_range : ℚ), e.y + 20,
        (e.config.attack_range : ℚ), (e.config.height : ℚ) - 40⟩)

/-- `Enemy.take_damage` (lines 1656–1661): blocking (when the archetype
can block) floor-divides the amount by 3, then `Entity.take_damage` runs
(no-op while invincible; otherwise subtract, set 30 invincibility frames,
knockback, death at `health <= 0`). -/
def Enemy.take_damage (e : Enemy) (amount : ℤ) (knockback_direction : ℤ) :
    Enemy :=
  let amount := if e.blocking ∧ e.config.can_block then Int.fdiv amount 3
    else amount
  if e.invincibility_frames > 0 then e
  else
    let e1 : Enemy :=
      { e with
        health := e.health - amount
        invincibility_frames := 30
        velocity_x := (knockback_direction : ℚ) * 5 }
    if e1.health ≤ 0 then { e1 with health := 0, state := EntityState.DEAD }
    else e1

/-- The per-tick invincibility decrement inside `Enemy.update`
(lines 1513–1514). -/
def Enemy.tickInvincibility (e : Enemy) : Enemy :=
  if e.invincibility_frames > 0 then
    { e with invincibility_frames := e.invincibility_frames - 1 }
  else e

/-- The dead-enemy processing at the head of the enemy loop in
`Game.update` (lines 2289–2301): each enemy whose state is DEAD awards
its `config.score_value` to the player once and is removed from the
list; living enemies are kept (their AI update is modelled elsewhere). -/
def processDeadEnemies (player : Player) (enemies : List Enemy) :
    Player × List Enemy :=
  match enemies with
  | [] => (player, [])
  | e :: rest =>
    if e.state = EntityState.DEAD then
      processDeadEnemies { player with score := player.score + e.config.score_value } rest
    else
      let (p', es') := processDeadEnemies player rest
      (p', e :: es')

/-- One player-projectile hit scan from `Game.update` (lines 2343–2352):
walk the enemy list in order and, at the first enemy that is not DEAD and
overlaps the projectile rectangle, apply `take_damage` with knockback
from the projectile's horizontal velocity sign, register a combo hit for
the player, deactivate the projectile, and stop (`break`). -/
def projHitScan (player : Player) (proj : Projectile) (enemies : List Enemy) :
    Player × Projectile × List Enemy :=
  match enemies with
  | [] => (player, proj, [])
  | e :: rest =>
    if e.state ≠ EntityState.DEAD ∧
        (proj.get_rect.colliderect e.get_rect) = true then
      let direction : ℤ := if proj.velocity_x > 0 then 1 else -1
      (player.register_hit, { proj with active := false },
        e.take_damage proj.damage direction :: rest)
    else
      let (p', pr', es') := projHitScan player proj rest
      (p', pr', e :: es')

/-- The game state that the collision-resolution part of `Game.update`
acts on (player, enemy list, projectile list). -/
structure GameState where
  player : Player
  enemies : List Enemy
  projectiles : List Projectile

/-- The per-projectile loop body of `Game.update` (lines 2334–2358),
walking the live projectile list in order: each projectile is advanced
and, if still active, tested against the enemies (player projectiles) or
the player (enemy projectiles); projectiles inactive after the step are
dropped from the live list. -/
def projectilesScan (player : Player) (enemies : List Enemy) :
    List Projectile → Player × List Enemy × List Projectile
  | [] => (player, enemies, [])
  | proj :: rest =>
    let proj := proj.update
    if !proj.active then projectilesScan player enemies rest
    else if proj.owner_is_player then
      let (p1, pr1, es1) := projHitScan player proj enemies
      let (pF, esF, kept) := projectilesScan p1 es1 rest
      (pF, esF, if pr1.active then pr1 :: kept else kept)
    else
      if (proj.get_rect.colliderect player.get_rect) = true then
        let direction : ℤ := if proj.velocity_x > 0 then 1 else -1
        projectilesScan (player.take_damage proj.damage direction) enemies rest
      else
        let (pF, esF, kept) := projectilesScan player enemies rest
        (pF, esF, proj :: kept)

/-- The projectile phase of `Game.update` (lines 2333–2358). -/
def projectilesPhase (g : GameState) : GameState :=
  let (p1, es1, ps1) := projectilesScan g.player g.enemies g.projectiles
  ⟨p1, es1, ps1⟩

/-- The enemy loop of the player-melee check in `Game.update`
(lines 2363–2369): every enemy that is not DEAD and overlaps the attack
rectangle takes the combo-scaled damage (recomputed per enemy), and
`register_hit` is called for each such enemy, unconditionally of whether
`take_damage` had any effect. -/
def meleeScan (atkRect : Rect) (player : Player) :
    List Enemy → Player × List Enemy
  | [] => (player, [])
  | e :: rest =>
    if e.state ≠ EntityState.DEAD ∧
        (atkRect.colliderect e.get_rect) = true then
      let direction : ℤ := if player.facing_right then 1 else -1
      let damage := player.get_attack_damage
      let (pF, esF) := meleeScan atkRect player.register_hit rest
      (pF, e.take_damage damage direction :: esF)
    else
      let (pF, esF) := meleeScan atkRect player rest
      (pF, e :: esF)

/-- The player-melee phase of `Game.update` (lines 2360–2369): nothing
happens without an attack rectangle. -/
def playerMeleePhase (g : GameState) : GameState :=
  match g.player.get_attack_rect with
  | none => g
  | some atkRect =>
    let (p1, es1) := meleeScan atkRect g.player g.enemies
    ⟨p1, es1, g.projectiles⟩

/-- The enemy-melee loop of `Game.update` (lines 2371–2379): every enemy
that is not DEAD and has an attack rectangle overlapping the player
applies its configured damage to the player. -/
def enemyMeleeScan (player : Player) : List Enemy → Player
  | [] => player
  | e :: rest =>
    if e.state = EntityState.DEAD then enemyMeleeScan player rest
    else
      match e.get_attack_rect with
      | none => enemyMeleeScan player rest
      | some r =>
        if (r.colliderect player.get_rect) = true then
          let direction : ℤ := if e.facing_right then 1 else -1
          enemyMeleeScan (player.take_damage e.config.damage direction) rest
        else enemyMeleeScan player rest

/-- The enemy-melee phase of `Game.update` (lines 2371–2379). -/
def enemyMeleePhase (g : GameState) : GameState :=
  ⟨enemyMeleeScan g.player g.enemies, g.enemies, g.projectiles⟩

/-- The damage-resolution pipeline of `Game.update`, in source order:
projectiles (lines 2333–2358), then player melee (2360–2369), then enemy
melee (2371–2379). -/
def resolveCombat (g : GameState) : GameState :=
  enemyMeleePhase (playerMeleePhase (projectilesPhase g))

/-- The health-pickup application of `Game.update` (lines 2388–2390):
heal the player by the pickup amount, clamped to `max_health` (the
`HealthPickup` class constructs `heal_amount = 20`); the player's state
is not consulted. -/
def applyHealthPickup (player : Player) (heal_amount : ℤ) : Player :=
  { player with health := min player.max_health (player.health + heal_amount) }

end Arkham2D

namespace Shadows

/-- `EntityState` enum of `batman_arkham_shadows.py`. -/
inductive EntityState where
  | IDLE | RUNNING | JUMPING | FALLING | PUNCHING | KICKING | THROWING
  | BLOCKING | HIT | DEAD | SPECIAL
deriving DecidableEq, Repr

/-- `AttackType` enum of `batman_arkham_shadows.py`. -/
inductive AttackType where
  | NONE | PUNCH | KICK | BATARANG | PROJECTILE | SPECIAL
deriving DecidableEq, Repr

/-- `VillainType` enum of `batman_arkham_shadows.py`. -/
inductive VillainType where
  | TWOFACE | JOKER | PENGUIN | SCARECROW | CROC | BANE | DEATHSTROKE
deriving DecidableEq, Repr

/-- The `VillainConfig` dataclass of `batman_arkham_shadows.py`
(lines 100–131), numeric and boolean fields (the three name strings are
presentation-only and omitted). -/
structure VillainConfig where
  health : ℤ
  damage : ℤ
  speed : ℚ
  attack_range : ℤ
  attack_cooldown : ℤ
  width : ℤ
  height : ℤ
  can_block : Bool
  can_dodge : Bool
  can_counter : Bool
  has_projectile : Bool
  projectile_damage : ℤ
  has_special : Bool
  special_damage : ℤ
  phases : ℤ
  aggression : ℚ
  score_value : ℤ
  num_henchmen : ℤ

/-- The module-level `VILLAIN_CONFIGS` table (lines 137–276). -/
def VILLAIN_CONFIGS : VillainType → VillainConfig
  | VillainType.TWOFACE =>
    { health := 500, damage := 25, speed := 3.5, attack_range := 80
      attack_cooldown := 40, width := 70, height := 100
      can_block := true, can_dodge := false, can_counter := false
      has_projectile := true, projectile_damage := 18
      has_special := false, special_damage := 0, phases := 1
      aggression := 0.6, score_value := 5000, num_henchmen := 8 }
  | VillainType.JOKER =>
    { health := 550, damage := 22, speed := 4, attack_range := 75
      attack_cooldown := 35, width := 65, height := 100
      can_block := false, can_dodge := true, can_counter := false
      has_projectile := true, projectile_damage := 15
      has_special := true, special_damage := 0, phases := 1
      aggression := 0.7, score_value := 6000, num_henchmen := 10 }
  | VillainType.PENGUIN =>
    { health := 450, damage := 20, speed := 2.5, attack_range := 120
      attack_cooldown := 45, width := 70, height := 85
      can_block := false, can_dodge := false, can_counter := false
      has_projectile := true, projectile_damage := 20
      has_special := false, special_damage := 0, phases := 1
      aggression := 0.5, score_value := 5500, num_henchmen := 10 }
  | VillainType.SCARECROW =>
    { health := 480, damage := 24, speed := 3.8, attack_range := 90
      attack_cooldown := 38, width := 65, height := 105
      can_block := false, can_dodge := true, can_counter := false
      has_projectile := true, projectile_damage := 12
      has_special := true, special_damage := 30, phases := 1
      aggression := 0.65, score_value := 6000, num_henchmen := 9 }
  | VillainType.CROC =>
    { health := 900, damage := 45, speed := 2.2, attack_range := 100
      attack_cooldown := 55, width := 90, height := 120
      can_block := true, can_dodge := false, can_counter := false
      has_projectile := false, projectile_damage := 0
      has_special := true, special_damage := 60, phases := 1
      aggression := 0.8, score_value := 7000, num_henchmen := 6 }
  | VillainType.BANE =>
    { health := 1000, damage := 50, speed := 2.5, attack_range := 110
      attack_cooldown := 50, width := 95, height := 125
      can_block := true, can_dodge := false, can_counter := false
      has_projectile := false, projectile_damage := 0
      has_special := true, special_damage := 70, phases := 2
      aggression := 0.85, score_value := 8000, num_henchmen := 7 }
  | VillainType.DEATHSTROKE =>
    { health := 850, damage := 40, speed := 5.5, attack_range := 100
      attack_cooldown := 25, width := 75, height := 105
      can_block := true, can_dodge := true, can_counter := true
      has_projectile := true, projectile_damage := 25
      has_special := false, special_damage := 0, phases := 3
      aggression := 0.95, score_value := 10000, num_henchmen := 12 }

/-- The `PlayerStats` dataclass instance `PLAYER_STATS` of
`batman_arkham_shadows.py` (lines 282–312). -/
structure PlayerStats where
  MAX_HEALTH : ℤ
  MAX_LIVES : ℤ
  MOVE_SPEED : ℚ
  JUMP_POWER : ℚ
  DOUBLE_JUMP_POWER : ℚ
  MAX_JUMPS : ℤ
  PUNCH_DAMAGE : ℤ
  KICK_DAMAGE : ℤ
  BATARANG_DAMAGE : ℤ
  PUNCH_RANGE : ℤ
  KICK_RANGE : ℤ
  BATARANG_SPEED : ℚ
  BATARANG_MAX_DISTANCE : ℤ
  PUNCH_COOLDOWN : ℤ
  KICK_COOLDOWN : ℤ
  BATARANG_COOLDOWN : ℤ
  HIT_INVINCIBILITY : ℤ
  COMBO_WINDOW : ℤ
  COMBO_DAMAGE_BONUS : ℚ
  MAX_COMBO_MULTIPLIER : ℚ
  RESPAWN_INVINCIBILITY : ℤ

/-- The module-level `PLAYER_STATS = PlayerStats()` instance. -/
def PLAYER_STATS : PlayerStats where
  MAX_HEALTH := 150
  MAX_LIVES := 3
  MOVE_SPEED := 7
  JUMP_POWER := -19
  DOUBLE_JUMP_POWER := -16
  MAX_JUMPS := 2
  PUNCH_DAMAGE := 35
  KICK_DAMAGE := 45
  BATARANG_DAMAGE := 25
  PUNCH_RANGE := 75
  KICK_RANGE := 90
  BATARANG_SPEED := 18
  BATARANG_MAX_DISTANCE := 600
  PUNCH_COOLDOWN := 10
  KICK_COOLDOWN := 18
  BATARANG_COOLDOWN := 30
  HIT_INVINCIBILITY := 45
  COMBO_WINDOW := 100
  COMBO_DAMAGE_BONUS := 0.15
  MAX_COMBO_MULTIPLIER := 2.5
  RESPAWN_INVINCIBILITY := 120

/-- The `Player` class of `batman_arkham_shadows.py` (entity fields plus
the player fields of lines 1036–1054; animation counters omitted where
no claim depends on them). -/
structure Player where
  x : ℚ
  y : ℚ
  width : ℤ
  height : ℤ
  vx : ℚ
  vy : ℚ
  facing_right : Bool
  state : EntityState
  health : ℤ
  max_health : ℤ
  invincibility : ℤ
  current_attack : AttackType
  lives : ℤ
  jumps_left : ℤ
  combo : ℤ
  combo_timer : ℤ
  score : ℤ
  punch_cd : ℤ
  kick_cd : ℤ
  batarang_cd : ℤ
  attack_duration : ℤ
  last_safe_x : ℚ
  last_safe_y : ℚ

/-- `Player.is_on_ground` (GROUND_LEVEL = 580). -/
def Player.is_on_ground (p : Player) : Bool :=
  decide (p.y + (p.height : ℚ) ≥ 580)

/-- `Player.update_checkpoint` (lines 1056–1060): record the current
position as the last safe position only while grounded and not DEAD. -/
def Player.update_checkpoint (p : Player) : Player :=
  if p.is_on_ground = true ∧ p.state ≠ EntityState.DEAD then
    { p with last_safe_x := p.x, last_safe_y := p.y }
  else p

/-- `Player.respawn` (lines 1062–1082): returns `False` leaving the
player untouched when `lives <= 0`; otherwise decrements lives, restores
health to max, repositions to the last safe position, zeroes velocity,
returns to IDLE, grants the extended respawn invincibility window, and
clears combo and active-attack bookkeeping. -/
def Player.respawn (p : Player) : Bool × Player :=
  if p.lives ≤ 0 then (false, p)
  else
    (true, { p with
      lives := p.lives - 1
      health := p.max_health
      x := p.last_safe_x
      y := p.last_safe_y
      vx := 0
      vy := 0
      state := EntityState.IDLE
      invincibility := PLAYER_STATS.RESPAWN_INVINCIBILITY
      combo := 0
      combo_timer := 0
      current_attack := AttackType.NONE
      attack_duration := 0 })

/-- The player-death handling at the end of `Game.update`
(lines 2256–2267): when the player is DEAD, try to respawn; on success
play continues, otherwise the encounter reports player-defeated
(game over).  Returns the updated player and whether the encounter is
over. -/
def handlePlayerDeath (p : Player) : Player × Bool :=
  if p.state = EntityState.DEAD then
    let (ok, p') := p.respawn
    if ok then (p', false) else (p', true)
  else (p, false)

/-- The `Villain` instance fields relevant to phase escalation
(lines 1303–1327): the villain type, runtime health, phase counter and
venom flag.  The `self.config` attribute of the source is an alias of
the shared `VILLAIN_CONFIGS[villain_type]` object, so it is modelled as
the table entry of a `World` rather than a copied field. -/
structure Villain where
  villain_type : VillainType
  health : ℤ
  max_health : ℤ
  phase : ℤ
  venom_active : Bool

/-- `Villain._check_phase_transition` (lines 1381–1401), acting on the
villain's mutable fields and on the (aliased) config object.  Returns
the updated config and villain.  Bane: below half health in phase 1,
enter phase 2, activate venom, and write the boosted damage and speed
through the config reference.  Deathstroke: below 0.66 in phase 1 enter
phase 2; below 0.33 in phase 2 enter phase 3 and write
`can_counter = True` through the config reference. -/
def Villain.checkPhaseTransition (cfg : VillainConfig) (v : Villain) :
    VillainConfig × Villain :=
  if cfg.phases ≤ 1 then (cfg, v)
  else
    let health_percent : ℚ := (v.health : ℚ) / (v.max_health : ℚ)
    match v.villain_type with
    | VillainType.BANE =>
      if health_percent < 0.5 ∧ v.phase = 1 then
        ({ cfg with
            damage := pyInt ((cfg.damage : ℚ) * 1.5)
            speed := cfg.speed * 1.3 },
          { v with phase := 2, venom_active := true })
      else (cfg, v)
    | VillainType.DEATHSTROKE =>
      if health_percent < 0.66 ∧ v.phase = 1 then
        (cfg, { v with phase := 2 })
      else if health_percent < 0.33 ∧ v.phase = 2 then
        ({ cfg with can_counter := true }, { v with phase := 3 })
      else (cfg, v)
    | _ => (cfg, v)

/-- The process-wide mutable state the phase-transition code touches: the
shared `VILLAIN_CONFIGS` table (which `self.config` aliases) and one live
villain instance. -/
structure World where
  table : VillainType → VillainConfig
  boss : Villain

/-- `Villain.__init__` (lines 1303–1321) restricted to the fields of the
model: a fresh instance reads its stats from the shared table and starts
in phase 1 with venom inactive. -/
def spawnVillain (table : VillainType → VillainConfig) (vt : VillainType) :
    Villain where
  villain_type := vt
  health := (table vt).health
  max_health := (table vt).health
  phase := 1
  venom_active := false

/-- One `_check_phase_transition` call as it acts on the process state:
`self.config` is `VILLAIN_CONFIGS[self.villain_type]`, so the write goes
back into the shared table. -/
def phaseStep (w : World) : World :=
  let (cfg', v') :=
    Villain.checkPhaseTransition (w.table w.boss.villain_type) w.boss
  { table := fun t => if t = w.boss.villain_type then cfg' else w.table t
    boss := v' }

end Shadows

/-!
Concrete fixtures used by witnesses and counterexamples.
-/

namespace Arkham2D

/-- A freshly constructed player (`Player.__init__` at (100, 500)): full
health, no cooldowns, no active attack, no combo. -/
def basePlayer : Player where
  x := 100
  y := 500
  width := 50
  height := 80
  velocity_x := 0
  velocity_y := 0
  facing_right := true
  state := EntityState.IDLE
  health := 120
  max_health := 120
  invincibility_frames := 0
  current_attack := AttackType.NONE
  jumps_remaining := 2
  combo_count := 0
  combo_timer := 0
  score := 0
  punch_cooldown := 0
  kick_cooldown := 0
  batarang_cooldown := 0
  attack_duration := 0

/-- The opponent archetype of the three-punch scenario of the spec:
`health=100`, `damage=20`, no blocking, reward `score_value=100` (the
dataclass defaults for the remaining fields). -/
def scenarioConfig : EnemyConfig where
  is_boss := false
  health := 100
  damage := 20
  speed := 2.5
  attack_range := 60
  attack_cooldown := 45
  width := 50
  height := 80
  can_block := false
  can_dodge := false
  has_projectile := false
  projectile_damage := 0
  projectile_speed := 0
  aggression := 0.5
  patrol_range := 200
  score_value := 100
  health_drop_chance := 0.1

/-- A freshly spawned scenario opponent. -/
def scenarioEnemy : Enemy where
  x := 160
  y := 500
  velocity_x := 0
  velocity_y := 0
  facing_right := false
  state := EntityState.IDLE
  health := 100
  max_health := 100
  invincibility_frames := 0
  attack_cooldown := 0
  current_attack := AttackType.NONE
  attack_frame := 0
  config := scenarioConfig
  blocking := false

/-- C3 scenario, first punch: the player attacks. -/
def c3_p1 : Player := (basePlayer.punch).2

/-- C3 scenario: damage of the first punch (combo count 0). -/
def c3_d1 : ℤ := c3_p1.get_attack_damage

/-- C3 scenario: the opponent after the first punch lands. -/
def c3_e1 : Enemy := scenarioEnemy.take_damage c3_d1 1

/-- C3 scenario: the player after registering the first hit. -/
def c3_p1h : Player := c3_p1.register_hit

/-- C3 scenario: 31 simulation ticks pass (the opponent's 30-frame
post-hit invincibility expires; the 100-frame combo window does not),
then the player punches again. -/
def c3_p2 : Player := ((Player.tickTimers)^[31] c3_p1h).punch.2

/-- C3 scenario: damage of the second punch (combo count 1). -/
def c3_d2 : ℤ := c3_p2.get_attack_damage

/-- C3 scenario: the opponent after the second punch lands. -/
def c3_e2 : Enemy := ((Enemy.tickInvincibility)^[31] c3_e1).take_damage c3_d2 1

/-- C3 scenario: the player after registering the second hit. -/
def c3_p2h : Player := c3_p2.register_hit

/-- C3 scenario: 31 more ticks, then the third punch. -/
def c3_p3 : Player := ((Player.tickTimers)^[31] c3_p2h).punch.2

/-- C3 scenario: damage of the third punch (combo count 2). -/
def c3_d3 : ℤ := c3_p3.get_attack_damage

/-- C3 scenario: the opponent after the third punch lands. -/
def c3_e3 : Enemy := ((Enemy.tickInvincibility)^[31] c3_e2).take_damage c3_d3 1

/-- C3 scenario: the player after registering the third hit. -/
def c3_p3h : Player := c3_p3.register_hit

/-- A player in the middle of a punch with the batarang ready: the state
the C2 counterexample evaluates `throw_batarang` in. -/
def batarangDuringPunch : Player :=
  { basePlayer with
    current_attack := AttackType.PUNCH
    attack_duration := 5
    batarang_cooldown := 0 }

/-- An in-flight batarang close to its maximum range. -/
def sampleProj : Projectile :=
  { Projectile.mkNew 100 480 18 0 20 true 600 with distance_traveled := 590 }

/-- A dead player (killed at health 0) overlapping a health pickup: the
state the C5 counterexample evaluates the pickup heal in. -/
def deadPlayer2D : Player :=
  { basePlayer with health := 0, state := EntityState.DEAD }

/-- The scenario opponent inside its 30-frame post-hit invincibility. -/
def invincibleEnemy : Enemy :=
  { scenarioEnemy with invincibility_frames := 10 }

/-- A tick state in which the player's punch hitbox overlaps the
invincible opponent. -/
def comboWorld : GameState where
  player := { basePlayer with
    current_attack := AttackType.PUNCH
    attack_duration := 15 }
  enemies := [invincibleEnemy]
  projectiles := []

/-- An opponent that is already dead when collision resolution runs. -/
def deadEnemy : Enemy :=
  { scenarioEnemy with health := 0, state := EntityState.DEAD }

/-- A tick state with a dead opponent, an attacking player whose melee
rectangle covers the opponent, and a live batarang flying at it. -/
def deadEnemyWorld : GameState where
  player := { basePlayer with
    current_attack := AttackType.PUNCH
    attack_duration := 15 }
  enemies := [deadEnemy]
  projectiles := [Projectile.mkNew 150 520 18 0 20 true 600]

end Arkham2D

namespace Shadows

/-- A freshly constructed Batman (`Player.__init__` at (300, 485)). -/
def basePlayer : Player where
  x := 300
  y := 485
  width := 60
  height := 95
  vx := 0
  vy := 0
  facing_right := true
  state := EntityState.IDLE
  health := 150
  max_health := 150
  invincibility := 0
  current_attack := AttackType.NONE
  lives := 3
  jumps_left := 2
  combo := 0
  combo_timer := 0
  score := 0
  punch_cd := 0
  kick_cd := 0
  batarang_cd := 0
  attack_duration := 0
  last_safe_x := 300
  last_safe_y := 485

/-- A player killed mid-fight with 2 lives left: dirty transient state
(velocity, combo, active attack) and a recorded safe position distinct
from the death position. -/
def deadPlayer : Player :=
  { basePlayer with
    x := 900
    y := 300
    vx := 3
    vy := -2
    state := EntityState.DEAD
    health := 0
    lives := 2
    combo := 4
    combo_timer := 50
    current_attack := AttackType.PUNCH
    attack_duration := 6
    invincibility := 45
    last_safe_x := 120
    last_safe_y := 485 }

/-- The same death state with no lives left. -/
def noLivesPlayer : Player := { deadPlayer with lives := 0 }

/-- A Bane boss instance battered down to 499/1000 health (below the 50%
phase threshold), together with the shared configuration table. -/
def baneWorld : World where
  table := VILLAIN_CONFIGS
  boss := { spawnVillain VILLAIN_CONFIGS VillainType.BANE with health := 499 }

/-- A Deathstroke boss instance at 560/850 health (below the 0.66
threshold, above the 0.33 one). -/
def deathstrokeWorld : World where
  table := VILLAIN_CONFIGS
  boss :=
    { spawnVillain VILLAIN_CONFIGS VillainType.DEATHSTROKE with health := 560 }

end Shadows

/-- The actor health invariant of the spec: health within
`[0, max_health]`, and health 0 exactly in the Dead state. -/
def healthInv (health maxHealth : ℤ) (dead : Prop) : Prop :=
  0 ≤ health ∧ health ≤ maxHealth ∧ (health = 0 ↔ dead)

/-!
Theorems settling the claims.
-/

/-- C9: for every player with `lives <= 0`, `respawn()` returns `False`
and leaves every field of the player unchanged — the failed respawn is
atomic, with no partial reset. -/
theorem c9_respawn_without_lives_is_noop (p : Shadows.Player)
    (h : p.lives ≤ 0) : p.respawn = (false, p) := by
  simp [Shadows.Player.respawn, h]

/-- Witness for C9 at a concrete dead player with 0 lives. -/
theorem c9_respawn_without_lives_is_noop_witness :
    Shadows.noLivesPlayer.lives ≤ 0 ∧
    Shadows.noLivesPlayer.respawn = (false, Shadows.noLivesPlayer) :=
  ⟨by decide, c9_respawn_without_lives_is_noop Shadows.noLivesPlayer (by decide)⟩

/-- C6: a player who dies with `lives > 0` is respawned: lives drop by
one, health returns to `max_health`, the position is the last recorded
safe position, velocity and transient combat fields are cleared, the
state is IDLE, and the granted invincibility window (120) is numerically
longer than the post-hit window (45); with `lives <= 0` the death is
terminal and the encounter reports player-defeated.  The last safe
position is recorded by `update_checkpoint` only while grounded and not
dead. -/
theorem c6_respawn_behaviour (p q : Shadows.Player)
    (hdead : p.state = Shadows.EntityState.DEAD) :
    (0 < p.lives →
      (Shadows.handlePlayerDeath p).2 = false ∧
      (Shadows.handlePlayerDeath p).1.lives = p.lives - 1 ∧
      (Shadows.handlePlayerDeath p).1.health = p.max_health ∧
      (Shadows.handlePlayerDeath p).1.x = p.last_safe_x ∧
      (Shadows.handlePlayerDeath p).1.y = p.last_safe_y ∧
      (Shadows.handlePlayerDeath p).1.vx = 0 ∧
      (Shadows.handlePlayerDeath p).1.vy = 0 ∧
      (Shadows.handlePlayerDeath p).1.combo = 0 ∧
      (Shadows.handlePlayerDeath p).1.combo_timer = 0 ∧
      (Shadows.handlePlayerDeath p).1.current_attack = Shadows.AttackType.NONE ∧
      (Shadows.handlePlayerDeath p).1.attack_duration = 0 ∧
      (Shadows.handlePlayerDeath p).1.state = Shadows.EntityState.IDLE ∧
      (Shadows.handlePlayerDeath p).1.invincibility =
        Shadows.PLAYER_STATS.RESPAWN_INVINCIBILITY ∧
      Shadows.PLAYER_STATS.HIT_INVINCIBILITY <
        Shadows.PLAYER_STATS.RESPAWN_INVINCIBILITY) ∧
    (p.lives ≤ 0 → (Shadows.handlePlayerDeath p).2 = true) ∧
    ((q.update_checkpoint).last_safe_x =
      if q.is_on_ground = true ∧ q.state ≠ Shadows.EntityState.DEAD then q.x
      else q.last_safe_x) ∧
    ((q.update_checkpoint).last_safe_y =
      if q.is_on_ground = true ∧ q.state ≠ Shadows.EntityState.DEAD then q.y
      else q.last_safe_y) := by
  refine ⟨?_, ?_, ?_, ?_⟩
  · intro hl
    have hnl : ¬ p.lives ≤ 0 := by omega
    simp [Shadows.handlePlayerDeath, Shadows.Player.respawn, hdead, hnl,
      Shadows.PLAYER_STATS]
  · intro hl
    simp [Shadows.handlePlayerDeath, Shadows.Player.respawn, hdead, hl]
  · simp only [Shadows.Player.update_checkpoint]
    split <;> rfl
  · simp only [Shadows.Player.update_checkpoint]
    split <;> rfl

/-- Witness for C6: the concrete dead player with 2 lives respawns to
lives 1, full health 150, the recorded safe position (120, 485), IDLE
state, and the 120-frame respawn invincibility. -/
theorem c6_respawn_behaviour_witness :
    (Shadows.handlePlayerDeath Shadows.deadPlayer).2 = false ∧
    (Shadows.handlePlayerDeath Shadows.deadPlayer).1.lives = 1 ∧
    (Shadows.handlePlayerDeath Shadows.deadPlayer).1.health = 150 ∧
    (Shadows.handlePlayerDeath Shadows.deadPlayer).1.x = 120 ∧
    (Shadows.handlePlayerDeath Shadows.deadPlayer).1.state =
      Shadows.EntityState.IDLE ∧
    (Shadows.handlePlayerDeath Shadows.deadPlayer).1.invincibility = 120 := by
  have h := (c6_respawn_behaviour Shadows.deadPlayer Shadows.deadPlayer rfl).1
    (by decide)
  obtain ⟨h1, h2, h3, h4, _, _, _, _, _, _, _, h12, h13, _⟩ := h
  refine ⟨h1, ?_, ?_, ?_, h12, ?_⟩
  · rw [h2]; decide
  · rw [h3]; decide
  · rw [h4]; decide
  · rw [h13]; decide

/-- C7: an active projectile advances by its velocity each tick, its
`distance_traveled` grows by exactly `|velocity_x|` (strictly, whenever
the horizontal velocity is nonzero, as it is for every projectile the
code spawns), and it deactivates exactly on the first tick the
accumulated distance exceeds `max_distance`; a deactivated projectile is
never changed again.  The final conjunct shows the player batarang spawn
always has nonzero horizontal velocity. -/
theorem c7_projectile_lifecycle (pr : Arkham2D.Projectile)
    (h : pr.active = true) :
    (pr.update.x = pr.x + pr.velocity_x) ∧
    (pr.update.y = pr.y + pr.velocity_y) ∧
    (pr.update.distance_traveled = pr.distance_traveled + |pr.velocity_x|) ∧
    (pr.velocity_x ≠ 0 → pr.distance_traveled < pr.update.distance_traveled) ∧
    (pr.update.active = false ↔
      (pr.max_distance : ℚ) < pr.distance_traveled + |pr.velocity_x|) ∧
    (∀ q : Arkham2D.Projectile, q.active = false → q.update = q) ∧
    (∀ pl : Arkham2D.Player, ∀ b,
      (pl.throw_batarang).1 = some b → b.velocity_x ≠ 0) := by
  have hneg : ¬((!pr.active) = true) := by simp [h]
  refine ⟨?_, ?_, ?_, ?_, ?_, ?_, ?_⟩
  · simp only [Arkham2D.Projectile.update, if_neg hneg]
    split <;> rfl
  · simp only [Arkham2D.Projectile.update, if_neg hneg]
    split <;> rfl
  · simp only [Arkham2D.Projectile.update, if_neg hneg]
    split <;> rfl
  · intro hvx
    have habs : 0 < |pr.velocity_x| := abs_pos.mpr hvx
    simp only [Arkham2D.Projectile.update, if_neg hneg]
    split
    · exact lt_add_of_pos_right pr.distance_traveled habs
    · exact lt_add_of_pos_right pr.distance_traveled habs
  · simp only [Arkham2D.Projectile.update, if_neg hneg]
    constructor
    · intro hf
      by_cases hc : (pr.max_distance : ℚ) < pr.distance_traveled + |pr.velocity_x|
      · exact hc
      · rw [if_neg hc] at hf
        simp [h] at hf
    · intro hgt
      rw [if_pos hgt]
  · intro q hq
    simp [Arkham2D.Projectile.update, hq]
  · intro pl b hb
    simp only [Arkham2D.Player.throw_batarang] at hb
    by_cases hc : pl.batarang_cooldown ≤ 0
    · simp only [if_pos hc, Option.some.injEq] at hb
      subst hb
      by_cases hf : pl.facing_right <;>
        simp [Arkham2D.Projectile.mkNew, Arkham2D.PLAYER_STATS, hf]
    · simp only [if_neg hc] at hb
      simp at hb

/-- Witness for C7: the concrete batarang at distance 590 of 600 with
speed 18 deactivates on this tick, having accumulated 608. -/
theorem c7_projectile_lifecycle_witness :
    Arkham2D.sampleProj.active = true ∧
    Arkham2D.sampleProj.update.active = false ∧
    Arkham2D.sampleProj.update.distance_traveled = 608 := by
  have h := c7_projectile_lifecycle Arkham2D.sampleProj rfl
  have habs : |(18 : ℚ)| = 18 := abs_of_pos (by norm_num)
  refine ⟨rfl, ?_, ?_⟩
  · apply h.2.2.2.2.1.mpr
    show (600 : ℚ) < 590 + |(18 : ℚ)|
    rw [habs]
    norm_num
  · rw [h.2.2.1]
    show (590 : ℚ) + |(18 : ℚ)| = 608
    rw [habs]
    norm_num

/-- C2 (amended): punch and kick execute exactly when their own cooldown
is `<= 0` and no attack is active, setting their configured cooldown and
active duration; the batarang, however, is gated only by its own
cooldown and fires even while another attack is active.  Non-execution
returns `False`/`None` and changes nothing. -/
theorem c2_attack_gating (p : Arkham2D.Player) :
    ((p.punch.1 = true) ↔ (p.punch_cooldown ≤ 0 ∧ p.attack_duration ≤ 0)) ∧
    (p.punch.1 = false → p.punch.2 = p) ∧
    (p.punch.1 = true →
      p.punch.2.punch_cooldown = Arkham2D.PLAYER_STATS.PUNCH_COOLDOWN ∧
      p.punch.2.attack_duration = 15 ∧
      p.punch.2.current_attack = Arkham2D.AttackType.PUNCH ∧
      p.punch.2.state = Arkham2D.EntityState.ATTACKING) ∧
    ((p.kick.1 = true) ↔ (p.kick_cooldown ≤ 0 ∧ p.attack_duration ≤ 0)) ∧
    (p.kick.1 = false → p.kick.2 = p) ∧
    (p.kick.1 = true →
      p.kick.2.kick_cooldown = Arkham2D.PLAYER_STATS.KICK_COOLDOWN ∧
      p.kick.2.attack_duration = 20 ∧
      p.kick.2.current_attack = Arkham2D.AttackType.KICK ∧
      p.kick.2.state = Arkham2D.EntityState.ATTACKING) ∧
    ((p.throw_batarang.1.isSome = true) ↔ p.batarang_cooldown ≤ 0) ∧
    (p.throw_batarang.1 = none → p.throw_batarang.2 = p) ∧
    (p.throw_batarang.1.isSome = true →
      p.throw_batarang.2.batarang_cooldown =
        Arkham2D.PLAYER_STATS.BATARANG_COOLDOWN ∧
      p.throw_batarang.2.attack_duration = 10 ∧
      p.throw_batarang.2.current_attack = Arkham2D.AttackType.BATARANG) := by
  by_cases hpc : p.punch_cooldown ≤ 0 <;>
    by_cases hkc : p.kick_cooldown ≤ 0 <;>
      by_cases hd : p.attack_duration ≤ 0 <;>
        by_cases hb : p.batarang_cooldown ≤ 0 <;>
          simp [Arkham2D.Player.punch, Arkham2D.Player.kick,
            Arkham2D.Player.throw_batarang, hpc, hkc, hd, hb]

/-- Witness for C2 (amended): with everything ready a punch fires, and a
punch cooldown of exactly 1 blocks it. -/
theorem c2_attack_gating_witness :
    (Arkham2D.basePlayer.punch).1 = true ∧
    (({ Arkham2D.basePlayer with punch_cooldown := 1 }).punch).1 = false := by
  constructor
  · exact (c2_attack_gating Arkham2D.basePlayer).1.mpr (by decide)
  · have h := (c2_attack_gating
      { Arkham2D.basePlayer with punch_cooldown := 1 }).1
    cases hx : (({ Arkham2D.basePlayer with punch_cooldown := 1 }).punch).1
    · rfl
    · exact absurd (h.mp hx).1 (by decide)

/-- C2 counterexample: a player in the middle of a punch (active attack,
`attack_duration = 5`) with the batarang cooldown at 0 still fires the
batarang, contradicting the claim that an attack executes only when no
other attack is currently active. -/
theorem c2_counterexample :
    Arkham2D.batarangDuringPunch.batarang_cooldown = 0 ∧
    Arkham2D.batarangDuringPunch.current_attack = Arkham2D.AttackType.PUNCH ∧
    0 < Arkham2D.batarangDuringPunch.attack_duration ∧
    ((Arkham2D.batarangDuringPunch.throw_batarang).1).isSome = true := by
  decide

/-- C4 (amended): the player's melee hitbox is present on exactly the
frames where a punch or kick is the current attack and the duration is
positive — every frame of the attack, with no `active` sub-window; only
the enemy melee hitbox has a sub-range gate (`attack_frame >= 5`). -/
theorem c4_active_window (p : Arkham2D.Player) (e : Arkham2D.Enemy) :
    ((p.get_attack_rect).isSome = true ↔
      ((p.current_attack = Arkham2D.AttackType.PUNCH ∨
        p.current_attack = Arkham2D.AttackType.KICK) ∧
        0 < p.attack_duration)) ∧
    ((e.get_attack_rect).isSome = true ↔
      (e.current_attack = Arkham2D.AttackType.ENEMY_MELEE ∧
        5 ≤ e.attack_frame)) := by
  constructor
  · rcases hca : p.current_attack <;>
      by_cases hd : p.attack_duration ≤ 0 <;>
        simp [Arkham2D.Player.get_attack_rect, hca, hd] <;> omega
  · rcases hca : e.current_attack <;>
      by_cases hf : e.attack_frame < 5 <;>
        simp [Arkham2D.Enemy.get_attack_rect, hca, hf] <;> omega

/-- Witness for C4 (amended): a punch on its first frame has a live
hitbox; an enemy melee attack at `attack_frame = 4` has none. -/
theorem c4_active_window_witness :
    (({ Arkham2D.basePlayer with
        current_attack := Arkham2D.AttackType.PUNCH
        attack_duration := 15 }).get_attack_rect).isSome = true ∧
    (({ Arkham2D.scenarioEnemy with
        current_attack := Arkham2D.AttackType.ENEMY_MELEE
        attack_frame := 4 }).get_attack_rect).isSome = false := by
  constructor
  · exact (c4_active_window
      { Arkham2D.basePlayer with
        current_attack := Arkham2D.AttackType.PUNCH
        attack_duration := 15 } Arkham2D.scenarioEnemy).1.mpr (by decide)
  · have h := (c4_active_window Arkham2D.basePlayer
      { Arkham2D.scenarioEnemy with
        current_attack := Arkham2D.AttackType.ENEMY_MELEE
        attack_frame := 4 }).2
    cases hx : (({ Arkham2D.scenarioEnemy with
        current_attack := Arkham2D.AttackType.ENEMY_MELEE
        attack_frame := 4 }).get_attack_rect).isSome
    · rfl
    · exact absurd (h.mp hx).2 (by decide)

/-- C4 counterexample: for the concrete player, the punch hitbox is
present on every one of the 15 frames of the punch and every one of the
20 frames of the kick — there is no frame of an active player melee
attack with the hitbox absent, contradicting the claimed middle
sub-range. -/
theorem c4_counterexample :
    ((List.range 15).all fun i =>
      (({ Arkham2D.basePlayer with
          current_attack := Arkham2D.AttackType.PUNCH
          attack_duration := (i : ℤ) + 1 }).get_attack_rect).isSome) = true ∧
    ((List.range 20).all fun i =>
      (({ Arkham2D.basePlayer with
          current_attack := Arkham2D.AttackType.KICK
          attack_duration := (i : ℤ) + 1 }).get_attack_rect).isSome) = true := by
  decide

/-- C5 (amended): every operation keeps health within `[0, max_health]`;
`health = 0 ↔ Dead` is preserved by damage application (including the
blocking-reduced path) and by respawn, but the health-pickup heal —
which never consults the actor's state — preserves the equivalence only
for actors that are not already Dead. -/
theorem c5_health_invariant (p : Arkham2D.Player) (e : Arkham2D.Enemy)
    (q : Shadows.Player) (a k : ℤ) (ha : 0 ≤ a) :
    (healthInv p.health p.max_health (p.state = Arkham2D.EntityState.DEAD) →
      healthInv (p.take_damage a k).health (p.take_damage a k).max_health
        ((p.take_damage a k).state = Arkham2D.EntityState.DEAD)) ∧
    (healthInv e.health e.max_health (e.state = Arkham2D.EntityState.DEAD) →
      healthInv (e.take_damage a k).health (e.take_damage a k).max_health
        ((e.take_damage a k).state = Arkham2D.EntityState.DEAD)) ∧
    (healthInv p.health p.max_health (p.state = Arkham2D.EntityState.DEAD) →
      0 ≤ (Arkham2D.applyHealthPickup p 20).health ∧
      (Arkham2D.applyHealthPickup p 20).health ≤ p.max_health ∧
      (p.state ≠ Arkham2D.EntityState.DEAD → 0 < p.max_health →
        ¬((Arkham2D.applyHealthPickup p 20).health = 0 ∧
          (Arkham2D.applyHealthPickup p 20).state ≠ Arkham2D.EntityState.DEAD) ∧
        ¬((Arkham2D.applyHealthPickup p 20).health ≠ 0 ∧
          (Arkham2D.applyHealthPickup p 20).state = Arkham2D.EntityState.DEAD))) ∧
    (healthInv q.health q.max_health (q.state = Shadows.EntityState.DEAD) →
      0 < q.max_health →
      healthInv (q.respawn).2.health (q.respawn).2.max_health
        ((q.respawn).2.state = Shadows.EntityState.DEAD)) := by
  refine ⟨?_, ?_, ?_, ?_⟩
  · rintro ⟨h0, h1, h2⟩
    unfold Arkham2D.Player.take_damage
    by_cases hi : p.invincibility_frames > 0
    · rw [if_pos hi]
      exact ⟨h0, h1, h2⟩
    · rw [if_neg hi]
      dsimp only
      split
      · next hc =>
        try dsimp only
        refine ⟨le_refl 0, by omega, by simp⟩
      · next hc =>
        try dsimp only
        have hc2 : ¬(p.health - a ≤ 0) := hc
        refine ⟨by omega, by omega, ?_⟩
        constructor
        · intro h3
          have h3' : p.health - a = 0 := h3
          exact absurd (le_of_eq h3') hc2
        · intro hstate
          have hdead : p.state = Arkham2D.EntityState.DEAD := hstate
          have := h2.mpr hdead
          omega
  · rintro ⟨h0, h1, h2⟩
    have ha2 : 0 ≤ Int.fdiv a 3 := Int.fdiv_nonneg ha (by norm_num)
    unfold Arkham2D.Enemy.take_damage
    by_cases hblk : e.blocking ∧ e.config.can_block
    case pos =>
      rw [if_pos hblk]
      by_cases hi : e.invincibility_frames > 0
      · rw [if_pos hi]
        exact ⟨h0, h1, h2⟩
      · rw [if_neg hi]
        try dsimp only
        split
        · next hc =>
          try dsimp only
          refine ⟨le_refl 0, by omega, by simp⟩
        · next hc =>
          try dsimp only
          refine ⟨by omega, by omega, ?_⟩
          constructor
          · intro h3
            exact absurd (le_of_eq h3) hc
          · intro hstate
            have := h2.mpr hstate
            omega
    case neg =>
      rw [if_neg hblk]
      by_cases hi : e.invincibility_frames > 0
      · rw [if_pos hi]
        exact ⟨h0, h1, h2⟩
      · rw [if_neg hi]
        try dsimp only
        split
        · next hc =>
          try dsimp only
          refine ⟨le_refl 0, by omega, by simp⟩
        · next hc =>
          try dsimp only
          refine ⟨by omega, by omega, ?_⟩
          constructor
          · intro h3
            exact absurd (le_of_eq h3) hc
          · intro hstate
            have := h2.mpr hstate
            omega
  · rintro ⟨h0, h1, h2⟩
    have hx : (Arkham2D.applyHealthPickup p 20).health =
        min p.max_health (p.health + 20) := rfl
    have hs : (Arkham2D.applyHealthPickup p 20).state = p.state := rfl
    refine ⟨?_, ?_, ?_⟩
    · rw [hx]
      exact le_min (by omega) (by omega)
    · rw [hx]
      exact min_le_left _ _
    · intro hnd hm
      constructor
      · rintro ⟨hh0, -⟩
        rw [hx] at hh0
        have := min_le_right p.max_health (p.health + 20)
        omega
      · rintro ⟨-, hdead⟩
        rw [hs] at hdead
        exact hnd hdead
  · rintro ⟨h0, h1, h2⟩ hm
    unfold Shadows.Player.respawn
    by_cases hl : q.lives ≤ 0
    · rw [if_pos hl]
      exact ⟨h0, h1, h2⟩
    · rw [if_neg hl]
      dsimp only
      refine ⟨by omega, le_refl _, ?_⟩
      constructor
      · intro hh
        have hh' : q.max_health = 0 := hh
        omega
      · intro hstate
        have : Shadows.EntityState.IDLE = Shadows.EntityState.DEAD := hstate
        simp at this

/-- Witness for C5 (amended): a 30-damage hit on the fresh scenario
opponent keeps the invariant (health 70, not dead). -/
theorem c5_health_invariant_witness :
    healthInv (Arkham2D.scenarioEnemy.take_damage 30 1).health
      (Arkham2D.scenarioEnemy.take_damage 30 1).max_health
      ((Arkham2D.scenarioEnemy.take_damage 30 1).state =
        Arkham2D.EntityState.DEAD) := by
  apply (c5_health_invariant Arkham2D.basePlayer Arkham2D.scenarioEnemy
    Shadows.basePlayer 30 1 (by norm_num)).2.1
  unfold healthInv
  refine ⟨by decide, by decide, by decide⟩

/-- C5 counterexample: applying the health-pickup heal to a dead player
with health 0 produces health 20 while the state stays DEAD — after the
`health pickup healing` operation the claimed `health = 0 ↔ Dead`
equivalence is violated. -/
theorem c5_counterexample :
    Arkham2D.deadPlayer2D.health = 0 ∧
    Arkham2D.deadPlayer2D.state = Arkham2D.EntityState.DEAD ∧
    (Arkham2D.applyHealthPickup Arkham2D.deadPlayer2D 20).health = 20 ∧
    (Arkham2D.applyHealthPickup Arkham2D.deadPlayer2D 20).state =
      Arkham2D.EntityState.DEAD := by
  refine ⟨rfl, rfl, ?_, rfl⟩
  decide

set_option maxRecDepth 100000

/-- Helper: the punch damage at a given combo count, as an exact
rational computation. -/
theorem punch_damage_at_combo (p : Arkham2D.Player) (c : ℤ)
    (hatk : p.current_attack = Arkham2D.AttackType.PUNCH)
    (hc : p.combo_count = c) :
    p.get_attack_damage = pyInt ((35 : ℚ) * min (1 + (c : ℚ) * 0.15) 2.5) := by
  simp [Arkham2D.Player.get_attack_damage, hatk, hc, Arkham2D.PLAYER_STATS]

/-- C3 counterexample: in the three-punch scenario the third damage is
`int(35 * 1.3) = 45` — the floor of 45.5 — not the claimed 46. -/
theorem c3_counterexample :
    Arkham2D.c3_d3 = 45 ∧ Arkham2D.c3_d3 ≠ 46 := by
  have h := punch_damage_at_combo Arkham2D.c3_p3 2 (by decide) (by decide)
  have hd3 : Arkham2D.c3_d3 = 45 := by
    rw [Arkham2D.c3_d3, h]
    norm_num [pyInt]
  exact ⟨hd3, by rw [hd3]; decide⟩

/-- C3 (amended): in the scenario (opponent health 100, no blocking,
three punches landing inside the combo window, spaced past the 30-frame
post-hit invincibility) the damages applied are 35, 40 and 45; the
opponent's health is clamped to 0 and its state is DEAD; processing the
dead opponent awards its configured reward exactly once (the opponent is
removed from the list, and a later pass over the emptied list adds
nothing). -/
theorem c3_three_punch_scenario :
    Arkham2D.c3_d1 = 35 ∧ Arkham2D.c3_d2 = 40 ∧ Arkham2D.c3_d3 = 45 ∧
    Arkham2D.c3_e3.health = 0 ∧
    Arkham2D.c3_e3.state = Arkham2D.EntityState.DEAD ∧
    (Arkham2D.processDeadEnemies Arkham2D.c3_p3h [Arkham2D.c3_e3]).1.score =
      Arkham2D.c3_p3h.score + Arkham2D.scenarioConfig.score_value ∧
    (Arkham2D.processDeadEnemies Arkham2D.c3_p3h [Arkham2D.c3_e3]).2 = [] ∧
    (∀ pl : Arkham2D.Player,
      (Arkham2D.processDeadEnemies pl []).1.score = pl.score) := by
  have hd1 : Arkham2D.c3_d1 = 35 := by
    have h := punch_damage_at_combo Arkham2D.c3_p1 0 (by decide) (by decide)
    rw [Arkham2D.c3_d1, h]
    norm_num [pyInt]
  have hd2 : Arkham2D.c3_d2 = 40 := by
    have h := punch_damage_at_combo Arkham2D.c3_p2 1 (by decide) (by decide)
    rw [Arkham2D.c3_d2, h]
    norm_num [pyInt]
  have hd3 : Arkham2D.c3_d3 = 45 := by
    have h := punch_damage_at_combo Arkham2D.c3_p3 2 (by decide) (by decide)
    rw [Arkham2D.c3_d3, h]
    norm_num [pyInt]
  have he3 : Arkham2D.c3_e3 =
      ((Arkham2D.Enemy.tickInvincibility)^[31]
        (((Arkham2D.Enemy.tickInvincibility)^[31]
          (Arkham2D.scenarioEnemy.take_damage 35 1)).take_damage 40
            1)).take_damage 45 1 := by
    rw [Arkham2D.c3_e3, Arkham2D.c3_e2, Arkham2D.c3_e1, hd1, hd2, hd3]
  have hh : Arkham2D.c3_e3.health = 0 := by rw [he3]; decide
  have hst : Arkham2D.c3_e3.state = Arkham2D.EntityState.DEAD := by
    rw [he3]; decide
  have hcfg : Arkham2D.c3_e3.config = Arkham2D.scenarioConfig := by
    rw [he3]; rfl
  refine ⟨hd1, hd2, hd3, hh, hst, ?_, ?_, fun pl => rfl⟩
  · simp [Arkham2D.processDeadEnemies, hst, hcfg]
  · simp [Arkham2D.processDeadEnemies, hst]

/-- C1: evaluation of the phase-transition code at the failing input.
Bane at 499/1000 health crosses the 50% threshold: the phase counter
increments to 2 exactly once (a second check does not re-trigger and the
boost is not compounded), but the damage/speed boost is written through
`self.config` — the shared `VILLAIN_CONFIGS[BANE]` object — so the
shared table entry becomes damage 75 / speed 3.25 while the original
configuration was damage 50 / speed 2.5, and a second, freshly spawned
Bane reads the boosted values.  Deathstroke's threshold likewise
escalates exactly once.  This contradicts the claim (and the spec) that
escalation only boosts the instance and never mutates the shared
archetype configuration. -/
theorem c1_phase_escalation_mutates_shared_config :
    (Shadows.phaseStep Shadows.baneWorld).boss.phase = 2 ∧
    (Shadows.phaseStep Shadows.baneWorld).boss.venom_active = true ∧
    ((Shadows.phaseStep Shadows.baneWorld).table
      Shadows.VillainType.BANE).damage = 75 ∧
    ((Shadows.phaseStep Shadows.baneWorld).table
      Shadows.VillainType.BANE).speed = 13 / 4 ∧
    (Shadows.VILLAIN_CONFIGS Shadows.VillainType.BANE).damage = 50 ∧
    (Shadows.VILLAIN_CONFIGS Shadows.VillainType.BANE).speed = 5 / 2 ∧
    ((Shadows.phaseStep Shadows.baneWorld).table
      Shadows.VillainType.DEATHSTROKE) =
      Shadows.VILLAIN_CONFIGS Shadows.VillainType.DEATHSTROKE ∧
    (Shadows.phaseStep (Shadows.phaseStep Shadows.baneWorld)).boss.phase = 2 ∧
    ((Shadows.phaseStep (Shadows.phaseStep Shadows.baneWorld)).table
      Shadows.VillainType.BANE).damage = 75 ∧
    (Shadows.phaseStep Shadows.deathstrokeWorld).boss.phase = 2 ∧
    (Shadows.phaseStep
      (Shadows.phaseStep Shadows.deathstrokeWorld)).boss.phase = 2 := by
  refine ⟨?_, ?_, ?_, ?_, ?_, ?_, ?_, ?_, ?_, ?_, ?_⟩ <;>
    norm_num [Shadows.phaseStep, Shadows.baneWorld, Shadows.deathstrokeWorld,
      Shadows.spawnVillain, Shadows.Villain.checkPhaseTransition,
      Shadows.VILLAIN_CONFIGS, pyInt] <;>
    decide

/-- Helper for C10: one pass of the player-melee phase over a single
living, overlapping, invincibility-protected opponent registers a combo
hit and changes nothing else: the opponent is returned unchanged
(`take_damage` is a no-op) and the attack rectangle persists. -/
theorem melee_invincible_step (g : Arkham2D.GameState) (e : Arkham2D.Enemy)
    (r : Rect)
    (hrect : g.player.get_attack_rect = some r)
    (hes : g.enemies = [e])
    (halive : e.state ≠ Arkham2D.EntityState.DEAD)
    (hcol : r.colliderect e.get_rect = true)
    (hinv : 0 < e.invincibility_frames) :
    (Arkham2D.playerMeleePhase g).player.combo_count =
      g.player.combo_count + 1 ∧
    (Arkham2D.playerMeleePhase g).enemies = [e] ∧
    (Arkham2D.playerMeleePhase g).player.get_attack_rect = some r := by
  have hnoop : ∀ d k, e.take_damage d k = e := by
    intro d k
    simp [Arkham2D.Enemy.take_damage, hinv]
  have hreg : ∀ q : Arkham2D.Player,
      (q.register_hit).get_attack_rect = q.get_attack_rect := fun q => rfl
  unfold Arkham2D.playerMeleePhase
  rw [hrect, hes]
  refine ⟨?_, ?_, ?_⟩
  · simp [Arkham2D.meleeScan, halive, hcol, Arkham2D.Player.register_hit]
  · simp [Arkham2D.meleeScan, halive, hcol, hnoop]
  · simp [Arkham2D.meleeScan, halive, hcol, hreg, hrect]

/-- C10: during melee resolution, combo registration happens for every
living overlapping opponent regardless of whether the damage application
took effect: with the opponent protected by its invincibility timer,
`n` resolution passes of the overlapping attack add `n` to the combo
count while the opponent — and in particular its health — is completely
unchanged. -/
theorem c10_combo_registers_without_damage (g : Arkham2D.GameState)
    (e : Arkham2D.Enemy) (r : Rect) (n : ℕ)
    (hrect : g.player.get_attack_rect = some r)
    (hes : g.enemies = [e])
    (halive : e.state ≠ Arkham2D.EntityState.DEAD)
    (hcol : r.colliderect e.get_rect = true)
    (hinv : 0 < e.invincibility_frames) :
    ((Arkham2D.playerMeleePhase)^[n] g).player.combo_count =
      g.player.combo_count + n ∧
    ((Arkham2D.playerMeleePhase)^[n] g).enemies = [e] ∧
    ((Arkham2D.playerMeleePhase)^[n] g).player.get_attack_rect = some r := by
  revert hrect hes
  induction n generalizing g with
  | zero =>
    intro hrect hes
    simpa using ⟨hes, hrect⟩
  | succ n ih =>
    intro hrect hes
    obtain ⟨ih1, ih2, ih3⟩ := ih g hrect hes
    rw [Function.iterate_succ_apply']
    obtain ⟨s1, s2, s3⟩ := melee_invincible_step
      ((Arkham2D.playerMeleePhase)^[n] g) e r ih3 ih2 halive hcol hinv
    refine ⟨?_, s2, s3⟩
    rw [s1, ih1]
    push_cast
    ring

/-- Witness for C10: two resolution passes of the punch over the
invincible scenario opponent take the combo from 0 to 2 while the
opponent is untouched. -/
theorem c10_combo_registers_without_damage_witness :
    ((Arkham2D.playerMeleePhase)^[2] Arkham2D.comboWorld).player.combo_count
      = 2 ∧
    ((Arkham2D.playerMeleePhase)^[2] Arkham2D.comboWorld).enemies =
      [Arkham2D.invincibleEnemy] := by
  have hrect : Arkham2D.comboWorld.player.get_attack_rect =
      some ⟨150, 520, 70, 40⟩ := by
    have hne : ¬(Arkham2D.comboWorld.player.current_attack =
        Arkham2D.AttackType.NONE ∨
        Arkham2D.comboWorld.player.attack_duration ≤ 0) := by decide
    rw [Arkham2D.Player.get_attack_rect, if_neg hne]
    norm_num [Arkham2D.comboWorld, Arkham2D.basePlayer,
      Arkham2D.PLAYER_STATS]
  have hcol : Rect.colliderect ⟨150, 520, 70, 40⟩
      Arkham2D.invincibleEnemy.get_rect = true := by
    norm_num [Rect.colliderect, Arkham2D.Enemy.get_rect,
      Arkham2D.invincibleEnemy, Arkham2D.scenarioEnemy,
      Arkham2D.scenarioConfig]
  have h := c10_combo_registers_without_damage Arkham2D.comboWorld
    Arkham2D.invincibleEnemy ⟨150, 520, 70, 40⟩ 2 hrect rfl (by decide)
    hcol (by decide)
  refine ⟨?_, h.2.1⟩
  rw [h.1]
  decide

/-- Helper for C8: the projectile hit scan never touches a dead enemy —
any index holding a DEAD enemy holds the identical enemy afterwards. -/
theorem projHitScan_preserves_dead (p : Arkham2D.Player)
    (proj : Arkham2D.Projectile) (es : List Arkham2D.Enemy) :
    ∀ (i : ℕ) (e : Arkham2D.Enemy), es[i]? = some e →
      e.state = Arkham2D.EntityState.DEAD →
      ((Arkham2D.projHitScan p proj es).2.2)[i]? = some e := by
  induction es with
  | nil =>
    intro i e h _
    simp at h
  | cons e0 rest ih =>
    intro i e h hd
    unfold Arkham2D.projHitScan
    split
    · next hcnd =>
      cases i with
      | zero =>
        simp only [List.getElem?_cons_zero, Option.some.injEq] at h
        subst h
        exact absurd hd hcnd.1
      | succ j =>
        simpa using h
    · next hcnd =>
      show ((e0 :: (Arkham2D.projHitScan p proj rest).2.2))[i]? = some e
      cases i with
      | zero => simpa using h
      | succ j =>
        simp only [List.getElem?_cons_succ]
        exact ih j e (by simpa using h) hd

/-- Helper for C8: the player-melee scan never touches a dead enemy. -/
theorem meleeScan_preserves_dead (r : Rect) (es : List Arkham2D.Enemy) :
    ∀ (pl : Arkham2D.Player) (i : ℕ) (e : Arkham2D.Enemy),
      es[i]? = some e → e.state = Arkham2D.EntityState.DEAD →
      ((Arkham2D.meleeScan r pl es).2)[i]? = some e := by
  induction es with
  | nil =>
    intro pl i e h _
    simp at h
  | cons e0 rest ih =>
    intro pl i e h hd
    unfold Arkham2D.meleeScan
    split
    · next hcnd =>
      show ((_ :: (Arkham2D.meleeScan r pl.register_hit rest).2))[i]? = some e
      cases i with
      | zero =>
        simp only [List.getElem?_cons_zero, Option.some.injEq] at h
        subst h
        exact absurd hd hcnd.1
      | succ j =>
        simp only [List.getElem?_cons_succ]
        exact ih pl.register_hit j e (by simpa using h) hd
    · next hcnd =>
      show ((e0 :: (Arkham2D.meleeScan r pl rest).2))[i]? = some e
      cases i with
      | zero => simpa using h
      | succ j =>
        simp only [List.getElem?_cons_succ]
        exact ih pl j e (by simpa using h) hd

/-- Helper for C8: the whole projectile phase never touches a dead
enemy. -/
theorem projectilesScan_preserves_dead (ps : List Arkham2D.Projectile) :
    ∀ (p : Arkham2D.Player) (es : List Arkham2D.Enemy) (i : ℕ)
      (e : Arkham2D.Enemy), es[i]? = some e →
      e.state = Arkham2D.EntityState.DEAD →
      ((Arkham2D.projectilesScan p es ps).2.1)[i]? = some e := by
  induction ps with
  | nil =>
    intro p es i e h _
    simpa using h
  | cons pr rest ih =>
    intro p es i e h hd
    unfold Arkham2D.projectilesScan
    try dsimp only
    split
    · exact ih p es i e h hd
    · split
      · show ((Arkham2D.projectilesScan
            (Arkham2D.projHitScan p pr.update es).1
            ((Arkham2D.projHitScan p pr.update es).2.2) rest).2.1)[i]? =
            some e
        exact ih _ _ i e
          (projHitScan_preserves_dead p pr.update es i e h hd) hd
      · split
        · exact ih _ es i e h hd
        · show ((Arkham2D.projectilesScan p es rest).2.1)[i]? = some e
          exact ih p es i e h hd

/-- C8: damage resolution is, by construction, the composition
projectiles → player melee → opponent melee, and an opponent that is
DEAD is excluded from every collision test: an opponent dead at the
start of the tick is untouched by the projectile phase, and an opponent
dead after the projectile phase (including one killed by a projectile
this very tick) is untouched by the rest of the tick's resolution. -/
theorem c8_tick_order_and_dead_exclusion (g : Arkham2D.GameState) (i : ℕ)
    (e : Arkham2D.Enemy) (hdead : e.state = Arkham2D.EntityState.DEAD) :
    (Arkham2D.resolveCombat g =
      Arkham2D.enemyMeleePhase
        (Arkham2D.playerMeleePhase (Arkham2D.projectilesPhase g))) ∧
    (g.enemies[i]? = some e →
      ((Arkham2D.projectilesPhase g).enemies)[i]? = some e) ∧
    (((Arkham2D.projectilesPhase g).enemies)[i]? = some e →
      ((Arkham2D.resolveCombat g).enemies)[i]? = some e) := by
  refine ⟨rfl, ?_, ?_⟩
  · intro h
    show ((Arkham2D.projectilesScan g.player g.enemies g.projectiles).2.1)[i]?
      = some e
    exact projectilesScan_preserves_dead g.projectiles g.player g.enemies i e
      h hdead
  · intro h
    show ((Arkham2D.playerMeleePhase
      (Arkham2D.projectilesPhase g)).enemies)[i]? = some e
    unfold Arkham2D.playerMeleePhase
    split
    · exact h
    · next r hr =>
      show ((Arkham2D.meleeScan r (Arkham2D.projectilesPhase g).player
        (Arkham2D.projectilesPhase g).enemies).2)[i]? = some e
      exact meleeScan_preserves_dead r (Arkham2D.projectilesPhase g).enemies
        (Arkham2D.projectilesPhase g).player i e h hdead

/-- Witness for C8: in the concrete tick state with a dead opponent, an
overlapping punch hitbox and a live batarang, the opponent comes out of
the full resolution pipeline identical. -/
theorem c8_tick_order_and_dead_exclusion_witness :
    ((Arkham2D.resolveCombat Arkham2D.deadEnemyWorld).enemies)[0]? =
      some Arkham2D.deadEnemy := by
  have h := c8_tick_order_and_dead_exclusion Arkham2D.deadEnemyWorld 0
    Arkham2D.deadEnemy rfl
  exact h.2.2 (h.2.1 rfl)

/-- Witness for C3 (amended): once the dead-opponent list has been
emptied, a further processing pass changes the score no further. -/
theorem c3_three_punch_scenario_witness :
    (Arkham2D.processDeadEnemies Arkham2D.basePlayer []).1.score =
      Arkham2D.basePlayer.score :=
  c3_three_punch_scenario.2.2.2.2.2.2.2 Arkham2D.basePlayer
